import Mathlib

/-!
# LiebExplorer core — shallow embedding and verification

This file embeds the core algorithms of the LiebExplorer backend in Lean 4
and proves (or refutes) the specification's claims about them.

Embedded components:
* `WindowManager` (`backend/app/browser/window_manager.py`): grid-size
  calculation, window placement with optional jitter, zoom clamping.
* `FingerprintGenerator` (`backend/app/browser/fingerprint.py`): fingerprint
  synthesis and user-agent derivation.
* `BrowserManager` (`backend/app/core/browser_manager.py`): instance
  creation with retry, deletion, and info queries.  The external Session
  Engine (selenium driver) is modelled by an explicit list of per-attempt
  outcomes; handles are attempt indices.
* the create-instances HTTP handler (`backend/app/api/v1/browser.py`):
  sequential id allocation.

Python integer arithmetic maps to `Nat`/`Int` (floor division on
non-negative operands is `Nat` division); Python floats in the zoom and
grid computations are modelled by exact rationals.
-/

namespace LiebExplorer

/-! ## Spatial Layout Engine (`window_manager.py`) -/

/-- A window rectangle; coordinates are integers because jitter can drive
them negative. -/
structure Rect where
  x : Int
  y : Int
  w : Int
  h : Int
  deriving Repr, DecidableEq

/-- Model of `WindowManager.position_window`: the rectangle assigned to
`instance_id` on a `rows × cols` grid over a `W × H` screen, with jitter
offsets `dx dy ∈ [-5,5]` and `dw dh ∈ [-10,10]` (all zero when
`randomize` is false).  Mirrors the Python source:
`window_width = W // cols - 4`, `window_height = H // rows - 4`,
`row, col = divmod(instance_id - 1, cols)`,
`x = (col * W // cols) + 2`, `y = (row * H // rows) + 100 + 2`. -/
def position_window (W H rows cols instance_id : Nat)
    (dx dy dw dh : Int) : Rect :=
  let window_width : Int := ((W / cols : Nat) : Int) - 4 + dw
  let window_height : Int := ((H / rows : Nat) : Int) - 4 + dh
  let row : Nat := (instance_id - 1) / cols
  let col : Nat := (instance_id - 1) % cols
  let x : Int := ((col * W / cols : Nat) : Int) + 2 + dx
  let y : Int := ((row * H / rows : Nat) : Int) + 100 + 2 + dy
  { x := x, y := y, w := window_width, h := window_height }

/-- The base (jitter-free) placement of `position_window`. -/
def position_window_base (W H rows cols instance_id : Nat) : Rect :=
  position_window W H rows cols instance_id 0 0 0 0

/-- Two rectangles overlap when their interiors intersect on both axes. -/
def Rect.Overlaps (r s : Rect) : Prop :=
  r.x < s.x + s.w ∧ s.x < r.x + r.w ∧ r.y < s.y + s.h ∧ s.y < r.y + r.h

instance : DecidablePred fun p : Rect × Rect => p.1.Overlaps p.2 := fun _ =>
  by unfold Rect.Overlaps; infer_instance

/-- Model of `WindowManager.set_zoom_level`: the effective zoom actually applied,
`max(25, min(200, zoom_level))`. -/
def set_zoom_level (zoom_level : ℚ) : ℚ :=
  max 25 (min 200 zoom_level)

/-- Python `round` (round-half-to-even) applied to the square root of a
non-negative rational: the integer `n` nearest to `√x`, ties going to the
even one.  `Nat.sqrt ⌊x⌋₊` locates `⌊√x⌋`; comparing `4x` with `(2n+1)²`
decides the rounding. -/
def roundSqrt (x : ℚ) : Nat :=
  let s := Nat.sqrt ⌊x⌋₊
  if 4 * x > ((2 * s + 1) ^ 2 : Nat) then s + 1
  else if 4 * x < ((2 * s + 1) ^ 2 : Nat) then s
  else if s % 2 = 0 then s else s + 1

/-- Model of `WindowManager._calculate_grid_size`: `cols = max(1, round(sqrt(n·ar)))`,
`rows = ceil(n / cols)` computed as `(n + cols - 1) // cols`. -/
def calculate_grid_size (num_windows : Nat) (aspect_ratio : ℚ) : Nat × Nat :=
  let cols := max 1 (roundSqrt (num_windows * aspect_ratio))
  let rows := (num_windows + cols - 1) / cols
  (rows, cols)

/-! ## Identity Synthesizer (`fingerprint.py`)

`random.choice` picks an arbitrary element of a fixed catalog; we model it
by an arbitrary natural index reduced modulo the catalog length, so every
reachable choice corresponds to some index and vice versa. -/

/-- Catalog `FingerprintGenerator.PLATFORMS`. -/
def PLATFORMS : List (String × List String) :=
  [("Windows", ["10.0", "11.0"]),
   ("Macintosh", ["10_15_7", "11_0_0", "12_0_0"]),
   ("X11", ["Linux x86_64", "Ubuntu; Linux"])]

/-- Catalog `FingerprintGenerator.RESOLUTIONS`. -/
def RESOLUTIONS : List (Nat × Nat) :=
  [(1920, 1080), (2560, 1440), (1680, 1050),
   (1440, 900), (1366, 768), (1280, 1024),
   (3840, 2160), (2560, 1600), (3440, 1440)]

/-- Catalog `FingerprintGenerator.CHROME_VERSIONS`. -/
def CHROME_VERSIONS : List String :=
  ["120.0.0.0", "119.0.0.0", "118.0.0.0"]

/-- Model of `FingerprintGenerator._generate_user_agent`, verbatim from the source's
three format strings. -/
def generate_user_agent (platform os_version chrome_version : String) : String :=
  let base := "Mozilla/5.0"
  let webkit := "AppleWebKit/537.36 (KHTML, like Gecko)"
  let chrome := "Chrome/" ++ chrome_version ++ " Safari/537.36"
  if platform = "Windows" then
    base ++ " (Windows NT " ++ os_version ++ ") " ++ webkit ++ " " ++ chrome
  else if platform = "Macintosh" then
    base ++ " (Macintosh; Intel Mac OS X " ++ os_version ++ ") " ++ webkit ++ " " ++ chrome
  else
    base ++ " (" ++ os_version ++ ") " ++ webkit ++ " " ++ chrome

/-- The fields of the generated fingerprint that the claims are about. -/
structure Fingerprint where
  platform : String
  os_version : String
  chrome_version : String
  screen_width : Nat
  screen_height : Nat
  user_agent : String
  deriving Repr, DecidableEq

/-- Model of `FingerprintGenerator.generate`, restricted to the claim-relevant
fields, driven by the random source's choice indices. -/
def generate (pIdx osIdx resIdx cIdx : Nat) : Fingerprint :=
  let pe := PLATFORMS.getD (pIdx % PLATFORMS.length) ("", [])
  let platform := pe.1
  let os_version := pe.2.getD (osIdx % pe.2.length) ""
  let res := RESOLUTIONS.getD (resIdx % RESOLUTIONS.length) (0, 0)
  let chrome_version := CHROME_VERSIONS.getD (cIdx % CHROME_VERSIONS.length) ""
  { platform := platform
    os_version := os_version
    chrome_version := chrome_version
    screen_width := res.1
    screen_height := res.2
    user_agent := generate_user_agent platform os_version chrome_version }

/-- Token `tok` occurs as a contiguous substring of `s`. -/
def ContainsTok (s tok : String) : Prop :=
  tok.toList <:+: s.toList

instance (s tok : String) : Decidable (ContainsTok s tok) := by
  unfold ContainsTok; infer_instance

/-! ## Instance Orchestrator (`browser_manager.py`)

The Session Engine (selenium) is external, so a run of
`BrowserManager.create_instance` is driven by a list of per-attempt engine
behaviours: either `create_driver` raises (`engineError`), or it returns a
driver which then passes or fails `_verify_instance` (for a failing one the
subsequent `driver.quit()` may itself raise, recorded by `teardownFails`).
Session handles are identified with attempt indices; the registry
`chrome_processes` is an association list from instance id to handle. -/

/-- Behaviour of the Session Engine on one creation attempt. -/
inductive AttemptOutcome where
  | engineError
  | created (verified : Bool) (teardownFails : Bool)
  deriving Repr, DecidableEq

/-- True for outcomes on which the attempt does not register the instance. -/
def AttemptOutcome.failed : AttemptOutcome → Bool
  | .engineError => true
  | .created verified _ => !verified

/-- Observable trace of the retry loop inside `create_instance`. -/
structure RunResult where
  /-- Handle registered on success (the successful attempt's index). -/
  registered : Option Nat
  /-- Sleep durations, one before each retry, in order. -/
  sleeps : List Nat
  /-- Handles created by the engine, in order. -/
  createdH : List Nat
  /-- Handles torn down (each during its own failed attempt, hence before
  any later attempt runs), in order. -/
  torn : List Nat
  /-- Number of attempts executed. -/
  attempts : Nat
  deriving Repr, DecidableEq

/-- The retry loop of `BrowserManager.create_instance` (lines 72-110):
`retry_delay` starts at 1 and is doubled only in the exception handler
(after an engine error), not after a failed verification; a sleep happens
at the top of every attempt except the first; a driver failing
verification is quit (errors swallowed) inside its own attempt. -/
def runAttempts : Nat → Nat → List AttemptOutcome → RunResult
  | _, _, [] => { registered := none, sleeps := [], createdH := [], torn := [], attempts := 0 }
  | retry_delay, idx, o :: rest =>
    let pre : List Nat := if idx = 0 then [] else [retry_delay]
    match o with
    | .created true _ =>
        { registered := some idx, sleeps := pre, createdH := [idx], torn := [], attempts := 1 }
    | .created false _ =>
        let r := runAttempts retry_delay (idx + 1) rest
        { registered := r.registered, sleeps := pre ++ r.sleeps,
          createdH := idx :: r.createdH, torn := idx :: r.torn,
          attempts := r.attempts + 1 }
    | .engineError =>
        let r := runAttempts (2 * retry_delay) (idx + 1) rest
        { registered := r.registered, sleeps := pre ++ r.sleeps,
          createdH := r.createdH, torn := r.torn, attempts := r.attempts + 1 }

/-- Handles created during the run and never torn down. -/
def liveHandles (r : RunResult) : List Nat :=
  r.createdH.filter (fun h => !(r.torn.contains h))

/-- The registry `BrowserManager.chrome_processes`: instance id to handle. -/
abbrev Registry : Type := List (String × Nat)

/-- Number of attempts in `l` that raised an engine error. -/
def errCount (l : List AttemptOutcome) : Nat :=
  l.countP (fun o => decide (o = .engineError))

/-- Model of `BrowserManager.create_instance`: duplicate ids fail with no
side effect; otherwise up to `max_retries = 3` attempts run and, on
success, the new handle is registered under `instance_id`.  Returns
(result, new registry, run trace). -/
def create_instance (reg : Registry) (instance_id : String)
    (outcomes : List AttemptOutcome) : Bool × Registry × RunResult :=
  if (List.lookup instance_id reg).isSome then
    (false, reg, { registered := none, sleeps := [], createdH := [], torn := [], attempts := 0 })
  else
    let r := runAttempts 1 0 (outcomes.take 3)
    match r.registered with
    | some h => (true, (instance_id, h) :: reg, r)
    | none => (false, reg, r)

set_option linter.unusedVariables false in
/-- Model of `BrowserManager.delete_instance`: absent ids fail with the
registry unchanged; otherwise `driver.quit()` is requested (its error,
`teardownFails`, is caught and logged) and the entry is removed
unconditionally.  Returns (result, new registry, teardown requested). -/
def delete_instance (reg : Registry) (instance_id : String)
    (teardownFails : Bool) : Bool × Registry × Bool :=
  match List.lookup instance_id reg with
  | none => (false, reg, false)
  | some _ =>
      (true, List.filter (fun p => p.1 != instance_id) reg, true)

/-- Outcome of the live url/title query `driver.current_url` /
`driver.title` inside `get_instance_info`. -/
inductive QueryOutcome where
  | ok (url title : String)
  | fail
  deriving Repr, DecidableEq

/-- The info record assembled by `get_instance_info`; `window_state` is
`none` when the window-state query raised. -/
structure InstanceInfo where
  id : String
  status : String
  url : String
  title : String
  window_state : Option String
  deriving Repr, DecidableEq

/-- Model of `BrowserManager.get_instance_info`: unknown ids yield `none`;
a failing url/title query makes the whole call return `none` (the inner
`except` returns `None`); a failing window-state query only nulls the
`window_state` field, the record still carrying status `running`. -/
def get_instance_info (reg : Registry) (instance_id : String)
    (q : QueryOutcome) (ws : Option String) : Option InstanceInfo :=
  match List.lookup instance_id reg with
  | none => none
  | some _ =>
    match q with
    | .fail => none
    | .ok url title =>
        some { id := instance_id, status := "running", url := url,
               title := title, window_state := ws }

/-! ## The create-instances handler (`api/v1/browser.py`) -/

/-- Id allocation in the `create_instances` endpoint:
`instance_id = str(len(browser_manager.chrome_processes) + 1)`. -/
def allocate_id (reg : Registry) : String :=
  toString (List.length reg + 1)

/-- Model of the `create_instances` endpoint loop: `count` iterations,
each allocating the next id and creating an instance (engine behaviour
for the i-th creation given by `scripts`); a failed creation raises
HTTP 500, modelled as `none`. -/
def create_instances (count : Nat) (reg : Registry)
    (scripts : List (List AttemptOutcome)) : Option Registry :=
  match count with
  | 0 => some reg
  | n + 1 =>
      let instance_id := allocate_id reg
      let r := create_instance reg instance_id (scripts.headD [])
      if r.1 then create_instances n r.2.1 scripts.tail
      else none

/-! ## Helper lemmas -/

/-- Looking up a key in a registry filtered of that key finds nothing. -/
lemma lookup_filter_self (a : String) (l : List (String × Nat)) :
    List.lookup a (l.filter (fun p => p.1 != a)) = none := by
  induction l with
  | nil => rfl
  | cons p t ih =>
      obtain ⟨k, v⟩ := p
      rw [List.filter_cons]
      by_cases hka : k = a
      · simp [hka, ih]
      · have h1 : ((k, v).1 != a) = true := by simp [bne_iff_ne]; exact hka
        have h2 : (a == k) = false := by
          simp [beq_eq_false_iff_ne]; exact fun hh => hka hh.symm
        simp [h1, List.lookup, h2, ih]

/-! ## C10: zoom clamping -/

/-- C10: for every input zoom level, `set_zoom_level` applies a value
clamped into the closed interval `[25, 200]`, and an already-in-range
value is applied unchanged. -/
theorem set_zoom_level_clamps (zoom_level : ℚ) :
    25 ≤ set_zoom_level zoom_level ∧ set_zoom_level zoom_level ≤ 200 ∧
      (25 ≤ zoom_level → zoom_level ≤ 200 → set_zoom_level zoom_level = zoom_level) := by
  unfold set_zoom_level
  refine ⟨le_max_left _ _, max_le (by norm_num) (min_le_left _ _), fun h1 h2 => ?_⟩
  rw [min_eq_right h2, max_eq_right h1]

/-- Witness for C10 at the in-range zoom 100 and the out-of-range zoom 300. -/
theorem set_zoom_level_clamps_witness :
    set_zoom_level 100 = 100 ∧ 25 ≤ set_zoom_level 300 ∧ set_zoom_level 300 ≤ 200 :=
  ⟨(set_zoom_level_clamps 100).2.2 (by norm_num) (by norm_num),
   (set_zoom_level_clamps 300).1, (set_zoom_level_clamps 300).2.1⟩

/-! ## C3: deleteInstance -/

/-- C3: `delete_instance` on an absent id returns false with the registry
unchanged and no teardown requested; on a present id it requests teardown,
removes the entry unconditionally and returns true; and its result does
not depend on whether the teardown raised (the error is absorbed). -/
theorem delete_instance_spec (reg : Registry) (instance_id : String)
    (teardownFails : Bool) :
    (List.lookup instance_id reg = none →
      delete_instance reg instance_id teardownFails = (false, reg, false)) ∧
    (∀ h, List.lookup instance_id reg = some h →
      (delete_instance reg instance_id teardownFails).1 = true ∧
      (delete_instance reg instance_id teardownFails).2.2 = true ∧
      List.lookup instance_id (delete_instance reg instance_id teardownFails).2.1 = none) ∧
    delete_instance reg instance_id true = delete_instance reg instance_id false := by
  refine ⟨fun habs => ?_, fun h hpres => ?_, rfl⟩
  · unfold delete_instance
    rw [habs]
  · unfold delete_instance
    rw [hpres]
    exact ⟨rfl, rfl, lookup_filter_self _ _⟩

/-- Witness for C3: a concrete two-entry registry, one absent id and one
present id. -/
theorem delete_instance_spec_witness :
    delete_instance [("1", 5)] "2" false = (false, [("1", 5)], false) ∧
    (delete_instance [("1", 5), ("2", 7)] "2" true).1 = true ∧
    List.lookup "2" (delete_instance [("1", 5), ("2", 7)] "2" true).2.1 = none :=
  ⟨(delete_instance_spec [("1", 5)] "2" false).1 (by decide),
   ((delete_instance_spec [("1", 5), ("2", 7)] "2" true).2.1 7 (by decide)).1,
   ((delete_instance_spec [("1", 5), ("2", 7)] "2" true).2.1 7 (by decide)).2.2⟩

/-! ## C4: getInstanceInfo under query failure -/

/-- C4 counterexample: with id "1" registered, a failing url/title query
makes `get_instance_info` return `none` (the instance is reported as
absent), not an info record whose status is downgraded to error. -/
theorem get_instance_info_queryfail_cex :
    List.lookup "1" [("1", 0)] = some 0 ∧
    get_instance_info [("1", 0)] "1" QueryOutcome.fail none = none := by
  decide

/-- C4 amended: for every registered id, a failing url/title query makes
`get_instance_info` return `none` rather than propagating; a successful
url/title query with a failing window-state query still yields a record
with status running and a null window state. -/
theorem get_instance_info_queryfail_spec (reg : Registry) (instance_id : String)
    (h : Nat) (hreg : List.lookup instance_id reg = some h) (ws : Option String) :
    get_instance_info reg instance_id QueryOutcome.fail ws = none ∧
    ∀ url title, get_instance_info reg instance_id (QueryOutcome.ok url title) none =
      some { id := instance_id, status := "running", url := url, title := title,
             window_state := none } := by
  unfold get_instance_info
  rw [hreg]
  exact ⟨rfl, fun url title => rfl⟩

/-- Witness for C4 at the one-entry registry containing id "1". -/
theorem get_instance_info_queryfail_spec_witness :
    get_instance_info [("1", 0)] "1" QueryOutcome.fail (some "ws") = none ∧
    get_instance_info [("1", 0)] "1" (QueryOutcome.ok "about:blank" "t") none =
      some { id := "1", status := "running", url := "about:blank", title := "t",
             window_state := none } :=
  ⟨(get_instance_info_queryfail_spec [("1", 0)] "1" 0 (by decide) (some "ws")).1,
   (get_instance_info_queryfail_spec [("1", 0)] "1" 0 (by decide) (some "ws")).2
     "about:blank" "t"⟩

/-! ## C5: id allocation in the create-instances handler -/

/-- C5 counterexample: create two instances (ids "1", "2"), delete "1";
the next allocation yields "2", which is still the id of a live instance,
and the create-instances request for one more instance fails instead of
adding a new entry. -/
theorem allocate_id_collision_cex :
    create_instances 2 [] [[.created true false], [.created true false]] =
      some [("2", 0), ("1", 0)] ∧
    (delete_instance [("2", 0), ("1", 0)] "1" false).2.1 = [("2", 0)] ∧
    allocate_id [("2", 0)] = "2" ∧
    List.lookup "2" [("2", 0)] = some 0 ∧
    create_instances 1 [("2", 0)] [[.created true false]] = none := by
  decide

/-- C5 amended: the handler allocates `str(len(registry) + 1)` (1-based
and dense in the registry size); whenever that id is not already live,
creating one instance succeeds and adds exactly one new entry carrying
the allocated id. -/
theorem allocate_id_fresh_spec (reg : Registry)
    (hfresh : List.lookup (allocate_id reg) reg = none) :
    allocate_id reg = toString (reg.length + 1) ∧
    create_instances 1 reg [[.created true false]] = some ((allocate_id reg, 0) :: reg) ∧
    ((allocate_id reg, 0) :: reg).length = reg.length + 1 ∧
    List.lookup (allocate_id reg) ((allocate_id reg, 0) :: reg) = some 0 := by
  refine ⟨rfl, ?_, rfl, ?_⟩
  · simp [create_instances, create_instance, hfresh, runAttempts]
  · rw [List.lookup_cons]
    simp

/-- Witness for C5 starting from the empty registry. -/
theorem allocate_id_fresh_spec_witness :
    allocate_id [] = toString (0 + 1) ∧
    create_instances 1 [] [[.created true false]] = some [(allocate_id [], 0)] := by
  have h := allocate_id_fresh_spec [] (by decide)
  exact ⟨h.1, h.2.1⟩

/-! ## C1: createInstance retry and teardown -/

/-- A run whose attempts all fail registers nothing. -/
lemma runAttempts_registered_none (l : List AttemptOutcome) (d idx : Nat)
    (hfail : ∀ o ∈ l, o.failed = true) :
    (runAttempts d idx l).registered = none := by
  induction l generalizing d idx with
  | nil => rfl
  | cons o rest ih =>
      cases o with
      | engineError =>
          simp only [runAttempts]
          exact ih _ _ (fun o ho => hfail o (List.mem_cons_of_mem _ ho))
      | created verified tf =>
          have hv := hfail _ (List.mem_cons_self _ _)
          cases verified with
          | true => simp [AttemptOutcome.failed] at hv
          | false =>
              simp only [runAttempts]
              exact ih _ _ (fun o ho => hfail o (List.mem_cons_of_mem _ ho))

/-- C1: starting from a registry without `instance_id`, a run whose
sessions fail verification on attempts 1 and 2 and pass on attempt 3
returns true, registers handle 2 (reported with status running however
the subsequent queries go), has torn down exactly the two failed handles
(each inside its own attempt, before the next one, whether or not its
teardown raised), and leaves exactly one live handle; a run whose three
attempts all fail returns false and leaves no registry entry for the id. -/
theorem create_instance_retry_verification (reg : Registry) (instance_id : String)
    (hfresh : List.lookup instance_id reg = none) :
    (∀ b1 b2 b3 : Bool,
      (create_instance reg instance_id
        [.created false b1, .created false b2, .created true b3]).1 = true ∧
      List.lookup instance_id (create_instance reg instance_id
        [.created false b1, .created false b2, .created true b3]).2.1 = some 2 ∧
      (∀ url title ws,
        (get_instance_info (create_instance reg instance_id
            [.created false b1, .created false b2, .created true b3]).2.1
          instance_id (QueryOutcome.ok url title) ws).map InstanceInfo.status =
          some "running") ∧
      (create_instance reg instance_id
        [.created false b1, .created false b2, .created true b3]).2.2.torn = [0, 1] ∧
      liveHandles (create_instance reg instance_id
        [.created false b1, .created false b2, .created true b3]).2.2 = [2]) ∧
    (∀ o1 o2 o3 : AttemptOutcome,
      o1.failed = true → o2.failed = true → o3.failed = true →
      (create_instance reg instance_id [o1, o2, o3]).1 = false ∧
      (create_instance reg instance_id [o1, o2, o3]).2.1 = reg ∧
      List.lookup instance_id (create_instance reg instance_id [o1, o2, o3]).2.1 = none) := by
  constructor
  · intro b1 b2 b3
    refine ⟨?_, ?_, ?_, ?_, ?_⟩ <;>
      simp [create_instance, hfresh, runAttempts, liveHandles, get_instance_info,
        List.lookup]
  · intro o1 o2 o3 h1 h2 h3
    have hnone : (runAttempts 1 0 [o1, o2, o3]).registered = none := by
      refine runAttempts_registered_none _ _ _ ?_
      intro o ho
      simp only [List.mem_cons, List.not_mem_nil, or_false] at ho
      rcases ho with rfl | rfl | rfl <;> assumption
    have htake : List.take 3 [o1, o2, o3] = [o1, o2, o3] := rfl
    have hci : create_instance reg instance_id [o1, o2, o3] =
        (false, reg, runAttempts 1 0 [o1, o2, o3]) := by
      unfold create_instance
      rw [hfresh]
      simp only [Option.isSome_none, Bool.false_eq_true, if_false, htake, hnone]
    rw [hci]
    exact ⟨rfl, rfl, hfresh⟩

/-- Witness for C1 at the empty registry and id "1". -/
theorem create_instance_retry_verification_witness :
    (create_instance [] "1"
      [.created false true, .created false false, .created true false]).1 = true ∧
    liveHandles (create_instance [] "1"
      [.created false true, .created false false, .created true false]).2.2 = [2] ∧
    (create_instance [] "1" [.engineError, .created false true, .engineError]).1 = false := by
  have h := create_instance_retry_verification [] "1" (by decide)
  exact ⟨(h.1 true false false).1, (h.1 true false false).2.2.2.2,
    (h.2 .engineError (.created false true) .engineError rfl rfl rfl).1⟩

/-! ## C2: retry backoff -/

/-- Attempts executed never exceed the outcome budget. -/
lemma runAttempts_attempts_le (l : List AttemptOutcome) (d idx : Nat) :
    (runAttempts d idx l).attempts ≤ l.length := by
  induction l generalizing d idx with
  | nil => simp [runAttempts]
  | cons o rest ih =>
      cases o with
      | engineError => simpa [runAttempts] using ih (2 * d) (idx + 1)
      | created verified tf =>
          cases verified with
          | true => simp [runAttempts]
          | false => simpa [runAttempts] using ih d (idx + 1)

/-- The sleep before each remaining attempt is the current delay scaled
by one doubling per engine error seen so far (verification failures leave
the delay unchanged); version for non-first attempts. -/
lemma runAttempts_sleeps_aux (l : List AttemptOutcome) (d idx : Nat) :
    (runAttempts d (idx + 1) l).sleeps =
      (List.range (runAttempts d (idx + 1) l).attempts).map
        (fun i => d * 2 ^ errCount (l.take i)) := by
  induction l generalizing d idx with
  | nil => rfl
  | cons o rest ih =>
      cases o with
      | created verified tf =>
          cases verified with
          | true =>
              have hif : (if idx + 1 = 0 then ([] : List Nat) else [d]) = [d] :=
                if_neg (Nat.succ_ne_zero idx)
              have hr1 : List.range 1 = [0] := rfl
              simp [runAttempts, hif, errCount, hr1]
          | false =>
              have hif : (if idx + 1 = 0 then ([] : List Nat) else [d]) = [d] :=
                if_neg (Nat.succ_ne_zero idx)
              simp only [runAttempts, hif, List.singleton_append,
                List.range_succ_eq_map, List.map_cons, List.map_map, List.cons.injEq]
              refine ⟨by simp [errCount], ?_⟩
              rw [ih d (idx + 1)]
              refine List.map_congr_left fun i hi => ?_
              simp [Function.comp, errCount, List.countP_cons]
      | engineError =>
          have hif : (if idx + 1 = 0 then ([] : List Nat) else [d]) = [d] :=
            if_neg (Nat.succ_ne_zero idx)
          simp only [runAttempts, hif, List.singleton_append,
            List.range_succ_eq_map, List.map_cons, List.map_map, List.cons.injEq]
          refine ⟨by simp [errCount], ?_⟩
          rw [ih (2 * d) (idx + 1)]
          refine List.map_congr_left fun i hi => ?_
          simp only [Function.comp_apply, List.take_succ_cons]
          have hcnt : errCount (AttemptOutcome.engineError :: rest.take i) =
              errCount (rest.take i) + 1 := by
            simp [errCount, List.countP_cons]
          rw [hcnt, pow_succ]
          ring

/-- Sleep schedule of a full `create_instance` run: the first attempt
never sleeps, and the sleep before attempt `i` is `2 ^ (number of engine
errors among the first i outcomes)`. -/
lemma runAttempts_sleeps_top (l : List AttemptOutcome) :
    (runAttempts 1 0 l).sleeps =
      ((List.range (runAttempts 1 0 l).attempts).map
        (fun i => 2 ^ errCount (l.take i))).tail := by
  cases l with
  | nil => rfl
  | cons o rest =>
      have hif : (if (0 : Nat) = 0 then ([] : List Nat) else [1]) = [] := if_pos rfl
      cases o with
      | created verified tf =>
          cases verified with
          | true =>
              have hr1 : List.range 1 = [0] := rfl
              simp [runAttempts, hr1]
          | false =>
              simp only [runAttempts, hif, List.nil_append,
                List.range_succ_eq_map, List.map_cons, List.map_map, List.tail_cons]
              rw [runAttempts_sleeps_aux rest 1 0]
              refine List.map_congr_left fun i hi => ?_
              simp [Function.comp, errCount, List.countP_cons]
      | engineError =>
          simp only [runAttempts, hif, List.nil_append,
            List.range_succ_eq_map, List.map_cons, List.map_map, List.tail_cons]
          rw [runAttempts_sleeps_aux rest (2 * 1) 0]
          refine List.map_congr_left fun i hi => ?_
          simp only [Function.comp_apply, List.take_succ_cons]
          have hcnt : errCount (AttemptOutcome.engineError :: rest.take i) =
              errCount (rest.take i) + 1 := by
            simp [errCount, List.countP_cons]
          rw [hcnt, pow_succ]
          ring

/-- C2 counterexample: a fresh creation whose first two attempts fail
verification sleeps 1 before each retry; the delay is not doubled after a
failed-verification attempt, contradicting the claimed unconditional
doubling (which would give sleeps 1 then 2). -/
theorem create_instance_backoff_cex :
    (create_instance [] "1"
      [.created false false, .created false false, .created true false]).2.2.sleeps =
      [1, 1] ∧
    ([1, 1] : List Nat) ≠ [1, 2] := by
  decide

/-- C2 amended: at most three attempts run; a sleep precedes every attempt
but the first; the delay starts at 1 time unit and is doubled exactly
after attempts that raised an engine error, staying unchanged after
failed-verification attempts, so the sleep before attempt `i` is
`2 ^ (engine errors among the first i attempts)`. -/
theorem create_instance_backoff_spec (reg : Registry) (instance_id : String)
    (outcomes : List AttemptOutcome)
    (hfresh : List.lookup instance_id reg = none) :
    (create_instance reg instance_id outcomes).2.2.attempts ≤ 3 ∧
    (create_instance reg instance_id outcomes).2.2.sleeps =
      ((List.range (create_instance reg instance_id outcomes).2.2.attempts).map
        (fun i => 2 ^ errCount ((outcomes.take 3).take i))).tail := by
  have hrun : (create_instance reg instance_id outcomes).2.2 =
      runAttempts 1 0 (outcomes.take 3) := by
    unfold create_instance
    rw [hfresh]
    simp only [Option.isSome_none, Bool.false_eq_true, if_false]
    cases hr : (runAttempts 1 0 (outcomes.take 3)).registered <;> simp [hr]
  rw [hrun]
  constructor
  · calc (runAttempts 1 0 (outcomes.take 3)).attempts
        ≤ (outcomes.take 3).length := runAttempts_attempts_le _ _ _
      _ ≤ 3 := List.length_take_le 3 outcomes
  · exact runAttempts_sleeps_top _

/-- Witness for C2: a concrete run with one engine error then a
verification failure then success; the recorded sleeps are 2 then 2. -/
theorem create_instance_backoff_spec_witness :
    (create_instance [] "1"
      [.engineError, .created false false, .created true false]).2.2.attempts ≤ 3 ∧
    (create_instance [] "1"
      [.engineError, .created false false, .created true false]).2.2.sleeps =
      ((List.range (create_instance [] "1"
          [.engineError, .created false false, .created true false]).2.2.attempts).map
        (fun i => 2 ^ errCount ((([AttemptOutcome.engineError,
            .created false false, .created true false]).take 3).take i))).tail :=
  create_instance_backoff_spec [] "1"
    [.engineError, .created false false, .created true false] (by decide)

/-! ## C6: fingerprint viewport and user-agent tokens -/

/-- An in-bounds `getD` returns a member of the list. -/
lemma getD_mem {α : Type} (l : List α) (i : Nat) (d : α) (h : i < l.length) :
    l.getD i d ∈ l := by
  rw [List.getD_eq_getElem l d h]
  exact List.getElem_mem h

/-- Every catalog resolution is positive in both coordinates. -/
lemma resolutions_pos : ∀ p ∈ RESOLUTIONS, 0 < p.1 ∧ 0 < p.2 := by decide

/-- Every platform entry carries at least one OS version. -/
lemma platforms_os_nonempty : ∀ pe ∈ PLATFORMS, 0 < pe.2.length := by decide

set_option maxRecDepth 8000 in
/-- Token content of every derivable user agent: Windows and Macintosh
agents carry their platform token; X11 agents carry the chosen OS version
string but never the token X11. -/
lemma ua_tokens :
    ∀ pe ∈ PLATFORMS, ∀ os ∈ pe.2, ∀ cv ∈ CHROME_VERSIONS,
      (pe.1 = "Windows" → ContainsTok (generate_user_agent pe.1 os cv) "Windows") ∧
      (pe.1 = "Macintosh" → ContainsTok (generate_user_agent pe.1 os cv) "Macintosh") ∧
      (pe.1 = "X11" → ContainsTok (generate_user_agent pe.1 os cv) os ∧
        ¬ ContainsTok (generate_user_agent pe.1 os cv) "X11") := by
  decide

set_option maxRecDepth 4000 in
/-- C6 counterexample: the X11 fingerprint with OS version Linux x86_64
has a user agent that does not contain the platform token X11. -/
theorem generate_x11_token_cex :
    (generate 2 0 0 0).platform = "X11" ∧
    ¬ ContainsTok (generate 2 0 0 0).user_agent "X11" := by
  decide

/-- C6 amended: every generated fingerprint has positive viewport width
and height, and its user agent contains the platform token for the
Windows and Macintosh families; for the X11 family the user agent
contains the chosen OS version string but omits the token X11. -/
theorem generate_spec (pIdx osIdx resIdx cIdx : Nat) :
    0 < (generate pIdx osIdx resIdx cIdx).screen_width ∧
    0 < (generate pIdx osIdx resIdx cIdx).screen_height ∧
    ((generate pIdx osIdx resIdx cIdx).platform = "Windows" →
      ContainsTok (generate pIdx osIdx resIdx cIdx).user_agent "Windows") ∧
    ((generate pIdx osIdx resIdx cIdx).platform = "Macintosh" →
      ContainsTok (generate pIdx osIdx resIdx cIdx).user_agent "Macintosh") ∧
    ((generate pIdx osIdx resIdx cIdx).platform = "X11" →
      ContainsTok (generate pIdx osIdx resIdx cIdx).user_agent
        (generate pIdx osIdx resIdx cIdx).os_version ∧
      ¬ ContainsTok (generate pIdx osIdx resIdx cIdx).user_agent "X11") := by
  have hres : RESOLUTIONS.getD (resIdx % RESOLUTIONS.length) (0, 0) ∈ RESOLUTIONS :=
    getD_mem _ _ _ (Nat.mod_lt _ (by decide))
  have hpe : PLATFORMS.getD (pIdx % PLATFORMS.length) ("", []) ∈ PLATFORMS :=
    getD_mem _ _ _ (Nat.mod_lt _ (by decide))
  have hos : (PLATFORMS.getD (pIdx % PLATFORMS.length) ("", [])).2.getD
      (osIdx % (PLATFORMS.getD (pIdx % PLATFORMS.length) ("", [])).2.length) "" ∈
      (PLATFORMS.getD (pIdx % PLATFORMS.length) ("", [])).2 :=
    getD_mem _ _ _ (Nat.mod_lt _ (platforms_os_nonempty _ hpe))
  have hcv : CHROME_VERSIONS.getD (cIdx % CHROME_VERSIONS.length) "" ∈ CHROME_VERSIONS :=
    getD_mem _ _ _ (Nat.mod_lt _ (by decide))
  have hdim := resolutions_pos _ hres
  have htok := ua_tokens _ hpe _ hos _ hcv
  exact ⟨hdim.1, hdim.2, htok.1, htok.2.1, htok.2.2⟩

set_option maxRecDepth 8000 in
/-- Witness for C6: no hypotheses to discharge; concrete instances at a
Windows index and the X11 index. -/
theorem generate_spec_witness :
    (0 < (generate 0 0 0 0).screen_width ∧
      ((generate 0 0 0 0).platform = "Windows" →
        ContainsTok (generate 0 0 0 0).user_agent "Windows")) ∧
    ((generate 2 1 3 1).platform = "X11" →
      ContainsTok (generate 2 1 3 1).user_agent (generate 2 1 3 1).os_version ∧
      ¬ ContainsTok (generate 2 1 3 1).user_agent "X11") :=
  ⟨⟨(generate_spec 0 0 0 0).1, (generate_spec 0 0 0 0).2.2.1⟩,
   (generate_spec 2 1 3 1).2.2.2.2⟩

/-! ## C7: grid dimensions -/

/-- Evaluation of the rounded square root at the tightness
counterexample: `round(sqrt(4 * 16/9)) = round(2.666) = 3`. -/
lemma roundSqrt_four_screens : roundSqrt ((4 : Nat) * (1920 / 1080 : ℚ)) = 3 := by
  have hx : ((4 : Nat) : ℚ) * (1920 / 1080) = 64 / 9 := by norm_num
  have hfl : ⌊(64 / 9 : ℚ)⌋₊ = 7 := by
    rw [Nat.floor_eq_iff] <;> norm_num
  have hs : Nat.sqrt 7 = 2 := by norm_num
  unfold roundSqrt
  rw [hx, hfl, hs]
  rw [if_pos (by norm_num)]

/-- C7 counterexample: at count 4 and the default screen aspect ratio
1920/1080, the grid is 2 rows by 3 columns; reducing the columns by one
(keeping the computed rows) still packs all 4 windows, so the claimed
tightness fails. -/
theorem calculate_grid_size_tight_cex :
    calculate_grid_size 4 (1920 / 1080 : ℚ) = (2, 3) ∧
    ¬ 2 * (3 - 1) < 4 := by
  refine ⟨?_, by norm_num⟩
  simp only [calculate_grid_size]
  rw [roundSqrt_four_screens]
  rfl

set_option linter.unusedVariables false in
/-- C7 amended: for every count at least 1 and positive aspect ratio the
computed grid has at least one column and covers all windows,
`rows * cols ≥ count`; the tightness part of the claim is dropped, being
false at count 4 and ratio 1920/1080. -/
theorem calculate_grid_size_covers (num_windows : Nat) (aspect_ratio : ℚ)
    (hn : 1 ≤ num_windows) (har : 0 < aspect_ratio) :
    num_windows ≤ (calculate_grid_size num_windows aspect_ratio).1 *
      (calculate_grid_size num_windows aspect_ratio).2 ∧
    1 ≤ (calculate_grid_size num_windows aspect_ratio).2 := by
  simp only [calculate_grid_size]
  set cols := max 1 (roundSqrt (num_windows * aspect_ratio)) with hcols
  have hc : 1 ≤ cols := le_max_left _ _
  have hdm := Nat.div_add_mod (num_windows + cols - 1) cols
  have hmod : (num_windows + cols - 1) % cols < cols := Nat.mod_lt _ hc
  constructor
  · rw [Nat.mul_comm]
    omega
  · exact hc

/-- Witness for C7 at count 5 and aspect ratio 16/9. -/
theorem calculate_grid_size_covers_witness :
    5 ≤ (calculate_grid_size 5 (16 / 9 : ℚ)).1 * (calculate_grid_size 5 (16 / 9 : ℚ)).2 ∧
    1 ≤ (calculate_grid_size 5 (16 / 9 : ℚ)).2 :=
  calculate_grid_size_covers 5 (16 / 9) (by norm_num) (by norm_num)

/-! ## C8, C9: window placement -/

/-- Sum of floors is at most the floor of the sum. -/
lemma div_add_div_le (a b k : Nat) (hk : 0 < k) : a / k + b / k ≤ (a + b) / k := by
  rw [Nat.le_div_iff_mul_le hk, Nat.add_mul]
  exact Nat.add_le_add (Nat.div_mul_le_self a k) (Nat.div_mul_le_self b k)

/-- A cell start plus a cell extent stays left of any later cell start. -/
lemma cell_sep (L k c1 c2 : Nat) (hk : 0 < k) (h : c1 < c2) :
    c1 * L / k + L / k ≤ c2 * L / k := by
  calc c1 * L / k + L / k ≤ (c1 * L + L) / k := div_add_div_le _ _ _ hk
    _ = (c1 + 1) * L / k := by congr 1; ring
    _ ≤ c2 * L / k := Nat.div_le_div_right (Nat.mul_le_mul_right L h)

/-- A cell start plus a cell extent stays within the screen length. -/
lemma cell_last_le (L k c : Nat) (hk : 0 < k) (hc : c < k) :
    c * L / k + L / k ≤ L := by
  calc c * L / k + L / k ≤ (c * L + L) / k := div_add_div_le _ _ _ hk
    _ = (c + 1) * L / k := by congr 1; ring
    _ ≤ k * L / k := Nat.div_le_div_right (Nat.mul_le_mul_right L hc)
    _ = L := Nat.mul_div_cancel_left L hk

/-- Envelope of any placement: relative to the jitter offsets, the
rectangle starts at least 2 in from the left, ends at least 2 short of
the screen width, starts at least 102 down, and ends at most 98 past the
screen height. -/
lemma position_window_envelope (W H rows cols n : Nat) (dx dy dw dh : Int)
    (hrows : 1 ≤ rows) (hcols : 1 ≤ cols) (hn1 : 1 ≤ n) (hn2 : n ≤ rows * cols) :
    2 + dx ≤ (position_window W H rows cols n dx dy dw dh).x ∧
    (position_window W H rows cols n dx dy dw dh).x +
      (position_window W H rows cols n dx dy dw dh).w ≤ (W : Int) - 2 + dx + dw ∧
    102 + dy ≤ (position_window W H rows cols n dx dy dw dh).y ∧
    (position_window W H rows cols n dx dy dw dh).y +
      (position_window W H rows cols n dx dy dw dh).h ≤ (H : Int) + 98 + dy + dh := by
  have hcol : (n - 1) % cols < cols := Nat.mod_lt _ hcols
  have hrow : (n - 1) / cols < rows := by
    rw [Nat.div_lt_iff_lt_mul hcols]
    omega
  have hx2 : (n - 1) % cols * W / cols + W / cols ≤ W := cell_last_le W cols _ hcols hcol
  have hy2 : (n - 1) / cols * H / rows + H / rows ≤ H := cell_last_le H rows _ hrows hrow
  have hx0 : 0 ≤ (((n - 1) % cols * W / cols : Nat) : Int) := Int.natCast_nonneg _
  have hy0 : 0 ≤ (((n - 1) / cols * H / rows : Nat) : Int) := Int.natCast_nonneg _
  simp only [position_window]
  refine ⟨by omega, by omega, by omega, by omega⟩

/-- C8 counterexample: on the default 1920 x 1080 screen with the default
2 x 5 grid, the base rectangle of ordinal 6 ends at 1178, below the
bottom of the screen, so the base placement is not contained in
`[0, screenWidth] x [100, screenHeight]`. -/
theorem base_placement_bounds_cex :
    (position_window_base 1920 1080 2 5 6).y +
      (position_window_base 1920 1080 2 5 6).h = 1178 ∧
    ¬ ((position_window_base 1920 1080 2 5 6).y +
      (position_window_base 1920 1080 2 5 6).h ≤ 1080) := by
  decide

set_option linter.unusedVariables false in
/-- C8 amended: base rectangles of distinct in-range ordinals are
pairwise non-overlapping, lie within `[0, screenWidth]` horizontally and
start below the reserved 100-pixel top margin, but their bottom edge is
only bounded by `screenHeight + 98`, not by `screenHeight` (containment
in `[reservedTopMargin, screenHeight]` fails vertically). -/
theorem base_placement_spec (W H rows cols m n : Nat)
    (hrows : 1 ≤ rows) (hcols : 1 ≤ cols)
    (hm1 : 1 ≤ m) (hm2 : m ≤ rows * cols)
    (hn1 : 1 ≤ n) (hn2 : n ≤ rows * cols) (hmn : m ≠ n) :
    ¬ (position_window_base W H rows cols m).Overlaps
        (position_window_base W H rows cols n) ∧
    0 ≤ (position_window_base W H rows cols n).x ∧
    (position_window_base W H rows cols n).x +
      (position_window_base W H rows cols n).w ≤ (W : Int) ∧
    100 ≤ (position_window_base W H rows cols n).y ∧
    (position_window_base W H rows cols n).y +
      (position_window_base W H rows cols n).h ≤ (H : Int) + 98 := by
  constructor
  · intro hov
    obtain ⟨h1, h2, h3, h4⟩ := hov
    simp only [position_window_base, position_window] at h1 h2 h3 h4
    rcases Nat.lt_trichotomy ((m - 1) % cols) ((n - 1) % cols) with hlt | heq | hgt
    · have hsep := cell_sep W cols _ _ hcols hlt
      omega
    · rcases Nat.lt_trichotomy ((m - 1) / cols) ((n - 1) / cols) with hrlt | hreq | hrgt
      · have hsep := cell_sep H rows _ _ hrows hrlt
        omega
      · apply hmn
        have hdmm := Nat.div_add_mod (m - 1) cols
        have hdmn := Nat.div_add_mod (n - 1) cols
        rw [hreq, heq] at hdmm
        omega
      · have hsep := cell_sep H rows _ _ hrows hrgt
        omega
    · have hsep := cell_sep W cols _ _ hcols hgt
      omega
  · have henv := position_window_envelope W H rows cols n 0 0 0 0 hrows hcols hn1 hn2
    obtain ⟨e1, e2, e3, e4⟩ := henv
    unfold position_window_base
    refine ⟨by omega, by omega, by omega, by omega⟩

/-- Witness for C8: ordinals 1 and 2 on the default 2 x 5 grid over the
default 1920 x 1080 screen. -/
theorem base_placement_spec_witness :
    ¬ (position_window_base 1920 1080 2 5 1).Overlaps
        (position_window_base 1920 1080 2 5 2) ∧
    0 ≤ (position_window_base 1920 1080 2 5 2).x ∧
    (position_window_base 1920 1080 2 5 2).x +
      (position_window_base 1920 1080 2 5 2).w ≤ ((1920 : Nat) : Int) ∧
    100 ≤ (position_window_base 1920 1080 2 5 2).y ∧
    (position_window_base 1920 1080 2 5 2).y +
      (position_window_base 1920 1080 2 5 2).h ≤ ((1080 : Nat) : Int) + 98 :=
  base_placement_spec 1920 1080 2 5 1 2 (by norm_num) (by norm_num) (by norm_num)
    (by norm_num) (by norm_num) (by norm_num) (by norm_num)

/-- C9 counterexample: ordinal 1 with the maximal leftward jitter of -5
is placed at x = -3, outside the left screen edge, so jitter can push the
rectangle outside `[0, screenWidth] x [100, screenHeight]`. -/
theorem jitter_bounds_cex :
    (position_window 1920 1080 2 5 1 (-5) 0 0 0).x = -3 ∧
    ¬ (0 ≤ (position_window 1920 1080 2 5 1 (-5) 0 0 0).x) := by
  decide

/-- C9 amended: with the source's jitter ranges (positions within 5,
sizes within 10), the jittered rectangle of an in-range ordinal deviates
boundedly but can leave the claimed region: it always satisfies
`x ≥ -3`, `y ≥ 97`, right edge at most `screenWidth + 13` and bottom
edge at most `screenHeight + 113`, and these slack bounds (rather than
containment in `[0, screenWidth] x [100, screenHeight]`) are what the
code guarantees. -/
theorem jitter_bounds_spec (W H rows cols n : Nat) (dx dy dw dh : Int)
    (hrows : 1 ≤ rows) (hcols : 1 ≤ cols) (hn1 : 1 ≤ n) (hn2 : n ≤ rows * cols)
    (hdx1 : -5 ≤ dx) (hdx2 : dx ≤ 5) (hdy1 : -5 ≤ dy) (hdy2 : dy ≤ 5)
    (hdw1 : -10 ≤ dw) (hdw2 : dw ≤ 10) (hdh1 : -10 ≤ dh) (hdh2 : dh ≤ 10) :
    -3 ≤ (position_window W H rows cols n dx dy dw dh).x ∧
    (position_window W H rows cols n dx dy dw dh).x +
      (position_window W H rows cols n dx dy dw dh).w ≤ (W : Int) + 13 ∧
    97 ≤ (position_window W H rows cols n dx dy dw dh).y ∧
    (position_window W H rows cols n dx dy dw dh).y +
      (position_window W H rows cols n dx dy dw dh).h ≤ (H : Int) + 113 := by
  have henv := position_window_envelope W H rows cols n dx dy dw dh hrows hcols hn1 hn2
  obtain ⟨e1, e2, e3, e4⟩ := henv
  refine ⟨by omega, by omega, by omega, by omega⟩

/-- Witness for C9: ordinal 1 on the default grid with extreme jitter. -/
theorem jitter_bounds_spec_witness :
    -3 ≤ (position_window 1920 1080 2 5 1 (-5) (-5) 10 10).x ∧
    (position_window 1920 1080 2 5 1 (-5) (-5) 10 10).x +
      (position_window 1920 1080 2 5 1 (-5) (-5) 10 10).w ≤ ((1920 : Nat) : Int) + 13 ∧
    97 ≤ (position_window 1920 1080 2 5 1 (-5) (-5) 10 10).y ∧
    (position_window 1920 1080 2 5 1 (-5) (-5) 10 10).y +
      (position_window 1920 1080 2 5 1 (-5) (-5) 10 10).h ≤ ((1080 : Nat) : Int) + 113 :=
  jitter_bounds_spec 1920 1080 2 5 1 (-5) (-5) 10 10 (by norm_num) (by norm_num)
    (by norm_num) (by norm_num) (by norm_num) (by norm_num) (by norm_num)
    (by norm_num) (by norm_num) (by norm_num) (by norm_num) (by norm_num)

end LiebExplorer
